import Mathlib

/-
Verification development for the asset-server asynchronous processing
pipeline.  The TypeScript sources (worker, per-kind transform executors,
logging service, type classifier) are shallowly embedded below: every
external call (network, filesystem, subprocess, database) is represented
by an oracle value recording that call's result, and the embedded
function reproduces the source's control flow over those oracles.
-/

namespace AssetServer

/-- Asset kind classification, the closed enumeration returned by
src/utils/getAssetType.ts. -/
inductive AssetType
  | image
  | video
  | pdf
  | unknown
deriving DecidableEq

/-- Embedding of getAssetType (src/utils/getAssetType.ts).  The argument is
the outcome of the HEAD probe: outer none models the fetch throwing, the
inner option models a possibly absent content-type header (the source
substitutes the empty string for a missing header). -/
def strStartsWith (s p : String) : Bool :=
  p.data.isPrefixOf s.data

def getAssetType (headResult : Option (Option String)) : AssetType :=
  match headResult with
  | none => AssetType.unknown
  | some header =>
    let contentType := header.getD ""
    if strStartsWith contentType "image/" then AssetType.image
    else if strStartsWith contentType "video/" then AssetType.video
    else if contentType = "application/pdf" then AssetType.pdf
    else AssetType.unknown

/-- The closed status enumeration of log events (src/utils/logService.ts and
the event schema in src/models/Log.ts). -/
inductive LogStatus
  | pending
  | processing
  | completed
  | failed
  | error
  | warning
deriving DecidableEq

/-- One event appended through the request-scoped logging handle. -/
structure Event where
  status : LogStatus
  message : String
  errorDetail : Option String
deriving DecidableEq

def warnEvent (message : String) (detail : Option String) : Event :=
  { status := LogStatus.warning, message := message, errorDetail := detail }

def procEvent (message : String) : Event :=
  { status := LogStatus.processing, message := message, errorDetail := none }

def failedEvent (message : String) : Event :=
  { status := LogStatus.failed, message := message, errorDetail := none }

def completedEvent (message : String) : Event :=
  { status := LogStatus.completed, message := message, errorDetail := none }

/-- Whether some event with the given status was emitted. -/
def hasStatus (events : List Event) (s : LogStatus) : Bool :=
  events.any (fun e => e.status == s)

/-- Crop rectangle in pixels (shared shape of the image and video
processors). -/
structure CropParams where
  x : Int
  y : Int
  width : Int
  height : Int
deriving DecidableEq

/-- Trim window in seconds.  The source's second field is named end, a Lean
keyword, so it is called stop here. -/
structure TrimParams where
  start : Rat
  stop : Rat
deriving DecidableEq

/-- Model of path.basename(p, path.extname(p)): the last path component with
its final extension removed. -/
def basenameNoExt (p : String) : String :=
  let base := (p.data.reverse.takeWhile (fun c => c != '/')).reverse
  let stem :=
    if base.contains '.' then ((base.reverse.dropWhile (fun c => c != '.')).drop 1).reverse
    else base
  String.mk stem

/-- Result of sharp's metadata() probe; width and height may be absent. -/
structure ImageMetadata where
  width : Option Int
  height : Option Int
deriving DecidableEq

/-- Oracles for the external calls processImage makes, in source order:
the metadata probe, the fs.stat size query, and the webp re-encode. -/
structure ImageEnv where
  metadata : Except String ImageMetadata
  statSize : Except String Nat
  encodeOk : Except String Unit

structure ImageResult where
  outputPath : String
  appliedCrop : Option CropParams
  quality : Nat
  events : List Event
deriving DecidableEq

/-- The warning the image executor logs for an out-of-bounds crop
rectangle. -/
def imageCropWarn (cp : CropParams) (imgWidth imgHeight : Int) : Event :=
  warnEvent ("Crop parameters (" ++ toString cp.x ++ ", " ++ toString cp.y ++ ", "
    ++ toString cp.width ++ ", " ++ toString cp.height
    ++ ") exceed image dimensions (" ++ toString imgWidth ++ " x " ++ toString imgHeight
    ++ "). Proceeding without cropping (using full image).") none

/-- Embedding of processImage (src/utils/imageProcessor.ts).  The metadata
probe is only issued when crop parameters are supplied and is NOT wrapped
in any try/catch, so its failure propagates; an out-of-bounds rectangle is
replaced by the full-frame rectangle after a warning; quality is 60 when
compression is requested and the input exceeds 500 KiB, else 100. -/
def processImage (inputPath : String) (compress : Bool) (cropParams : Option CropParams)
    (env : ImageEnv) : Except String ImageResult := do
  let outputPath := "processed/processed-" ++ basenameNoExt inputPath ++ ".webp"
  let cropStep : Except String (List Event × Option CropParams) :=
    match cropParams with
    | none => Except.ok ([], none)
    | some cp => do
      let md ← env.metadata
      let imgWidth := md.width.getD 0
      let imgHeight := md.height.getD 0
      if cp.x < 0 ∨ cp.y < 0 ∨ cp.x + cp.width > imgWidth ∨ cp.y + cp.height > imgHeight then
        Except.ok ([imageCropWarn cp imgWidth imgHeight],
          some { x := 0, y := 0, width := imgWidth, height := imgHeight })
      else
        Except.ok ([], some cp)
  let step ← cropStep
  let size ← env.statSize
  let quality := if compress ∧ size > 500 * 1024 then 60 else 100
  let _ ← env.encodeOk
  Except.ok { outputPath := outputPath, appliedCrop := step.2, quality := quality,
              events := step.1 }

/-- Oracles for the external calls processVideo makes: the two ffprobe
probes, the fs.stat size query, and the final ffmpeg run. -/
structure VideoEnv where
  dims : Except String (Int × Int)
  duration : Except String Rat
  statSize : Except String Nat
  runOk : Except String Unit

/-- What the video executor decided to ask ffmpeg for, plus the events it
logged while deciding. -/
structure VideoPlan where
  trimApplied : Option TrimParams
  cropFilter : Option CropParams
  crfApplied : Bool
  events : List Event
deriving DecidableEq

def videoCropWarn (cp : CropParams) (w h : Int) : Event :=
  warnEvent ("Crop parameters (" ++ toString cp.x ++ ", " ++ toString cp.y ++ ", "
    ++ toString cp.width ++ ", " ++ toString cp.height
    ++ ") exceed video dimensions (" ++ toString w ++ " x " ++ toString h
    ++ "). Proceeding without cropping (using full video).") none

def videoTrimWarn (tp : TrimParams) (d : Rat) : Event :=
  warnEvent ("Trim parameters (start: " ++ toString tp.start ++ ", end: " ++ toString tp.stop
    ++ ") are invalid. Video duration is " ++ toString d
    ++ " seconds. Proceeding without trimming.") none

/-- Embedding of the decision logic of processVideo
(src/utils/videoProcessor.ts): validation of crop against the probed
dimensions (probe errors are caught and only warned about), validation of
trim against the probed duration (likewise), the skip warnings emitted
inside the promise, and the size-gated compression flag. -/
def videoPlan (cropParams : Option CropParams) (trimParams : Option TrimParams)
    (compression : Bool) (env : VideoEnv) : VideoPlan :=
  let cropCheck : List Event × Bool :=
    match cropParams with
    | none => ([], false)
    | some cp =>
      match env.dims with
      | Except.error e =>
        ([warnEvent ("Error retrieving video dimensions: " ++ e) (some e)], false)
      | Except.ok (w, h) =>
        if cp.x < 0 ∨ cp.y < 0 ∨ cp.x + cp.width > w ∨ cp.y + cp.height > h then
          ([videoCropWarn cp w h], false)
        else ([], true)
  let trimCheck : List Event × Bool :=
    match trimParams with
    | none => ([], false)
    | some tp =>
      match env.duration with
      | Except.error e =>
        ([warnEvent ("Error retrieving video duration: " ++ e) (some e)], false)
      | Except.ok d =>
        if tp.start < 0 ∨ tp.stop > d ∨ tp.start ≥ tp.stop then
          ([videoTrimWarn tp d], false)
        else ([], true)
  let trimPart : Option TrimParams × List Event :=
    match trimParams with
    | some tp =>
      if trimCheck.2 then (some tp, [])
      else (none, [warnEvent "Trimming skipped due to invalid trim parameters." none])
    | none => (none, [])
  let cropPart : Option CropParams × List Event :=
    match cropParams with
    | some cp =>
      if cropCheck.2 then (some cp, [])
      else (none, [warnEvent "Cropping skipped due to invalid crop parameters." none])
    | none => (none, [])
  let sizePart : Bool × List Event :=
    match env.statSize with
    | Except.ok sz =>
      if compression ∧ sz > 1572864 then (true, [])
      else (false, [procEvent "Skipping compression due to file size threshold."])
    | Except.error e =>
      (false, [warnEvent "Error retrieving file size, proceeding without compression" (some e)])
  { trimApplied := trimPart.1, cropFilter := cropPart.1, crfApplied := sizePart.1,
    events := cropCheck.1 ++ trimCheck.1 ++ trimPart.2 ++ cropPart.2 ++ sizePart.2 }

structure VideoResult where
  outputPath : String
  plan : VideoPlan
deriving DecidableEq

/-- Embedding of processVideo (src/utils/videoProcessor.ts): the plan above
followed by the ffmpeg invocation, whose error rejects the returned
promise and so fails the executor. -/
def processVideo (inputPath : String) (cropParams : Option CropParams)
    (trimParams : Option TrimParams) (compression : Bool) (env : VideoEnv) :
    Except String VideoResult :=
  let plan := videoPlan cropParams trimParams compression env
  match env.runOk with
  | Except.ok _ =>
    Except.ok { outputPath := "processed/compressed-" ++ basenameNoExt inputPath ++ ".mp4",
                plan := plan }
  | Except.error e => Except.error e

/-- Modelled from the spec: ffmpeg is invoked as a black-box collaborator,
so the duration of its output is not computed by repository code.  Per the
spec's executor contract the output lasts the trim window when trimming
was applied and the input's original duration otherwise. -/
def videoOutputDuration (inputDuration : Rat) (trimApplied : Option TrimParams) : Rat :=
  match trimApplied with
  | some tp => tp.stop - tp.start
  | none => inputDuration

/-- Oracles for processPDF: the initial readFile, and the Ghostscript pass
(on success it carries the nonempty stderr text, if any, and the bytes
read back from the compressed output; an error models any throw inside
the compression try block). -/
structure PdfEnv where
  readInput : Except String (List Nat)
  gsRun : Except String (Option String × List Nat)

structure PdfResult where
  output : List Nat
  compressionAttempted : Bool
  events : List Event
deriving DecidableEq

/-- Embedding of processPDF (src/utils/pdfProcessor.ts).  Compression runs
only when requested and the input exceeds 50 KiB; a Ghostscript failure is
caught, warned about, and the ORIGINAL bytes are returned; otherwise the
original bytes are returned with a skip warning. -/
def processPDF (compress : Bool) (env : PdfEnv) : Except String PdfResult := do
  let fileBuffer ← env.readInput
  if compress ∧ fileBuffer.length > 50 * 1024 then
    match env.gsRun with
    | Except.ok (stderrText, compressedBuffer) =>
      let sErr := match stderrText with
        | some s => [warnEvent ("Ghostscript reported: " ++ s) none]
        | none => []
      Except.ok { output := compressedBuffer, compressionAttempted := true,
                  events := procEvent "Compressing PDF using Ghostscript..." :: sErr }
    | Except.error e =>
      Except.ok { output := fileBuffer, compressionAttempted := true,
                  events := [procEvent "Compressing PDF using Ghostscript...",
                             warnEvent ("Error during PDF compression: " ++ e) (some e)] }
  else
    Except.ok { output := fileBuffer, compressionAttempted := false,
                events := [warnEvent "Skipping PDF compression." none] }

/-- The imageProps option bag (src/config/processingConfig.ts; resize is
accepted but unused by the executor and omitted here). -/
structure ImageProps where
  compress : Option Bool
  cropParams : Option CropParams
deriving DecidableEq

structure VideoProps where
  cropParams : Option CropParams
  trimParams : Option TrimParams
  compression : Option Bool
deriving DecidableEq

structure PdfProps where
  compress : Option Bool
deriving DecidableEq

/-- The open assetConfig bag; hasOwnProperty key presence is modelled by
isSome of the corresponding field. -/
structure AssetConfig where
  imageProps : Option ImageProps
  videoProps : Option VideoProps
  pdfProps : Option PdfProps
deriving DecidableEq

/-- A queue message after JSON.parse; every field may be absent. -/
structure RawMsg where
  requestId : Option String
  source : Option String
  originalUrl : Option String
  overwriteUrl : Option String
  assetConfig : Option AssetConfig
deriving DecidableEq

/-- JS truthiness of an optional string field: undefined and the empty
string are falsy. -/
def truthyStr : Option String → Bool
  | none => false
  | some s => !(s == "")

/-- Embedding of getContentType (src/worker.ts): the Content-Type of the
final PUT, chosen from the classified asset kind alone. -/
def getContentType : AssetType → String
  | AssetType.image => "image/jpeg"
  | AssetType.video => "video/mp4"
  | AssetType.pdf => "application/pdf"
  | AssetType.unknown => "application/octet-stream"

def assetTypeName : AssetType → String
  | AssetType.image => "image"
  | AssetType.video => "video"
  | AssetType.pdf => "pdf"
  | AssetType.unknown => "unknown"

/-- Oracles for every external call the worker makes while handling one
delivery (src/worker.ts).  cleanup records the outcome of the Step 5
unlink calls; now models Date.now() for temp file names. -/
structure WorkerEnv where
  parsed : Except String RawMsg
  headResult : Option (Option String)
  download : Except String (List Nat)
  imageEnv : ImageEnv
  videoEnv : VideoEnv
  pdfEnv : PdfEnv
  readProcessed : Except String (List Nat)
  originalExists : Bool
  upload : Except String Unit
  cleanup : Except String Unit
  now : Nat

/-- The per-kind executor outcome as the orchestrator sees it. -/
structure ProcOutcome where
  outputPath : String
  events : List Event
  imageQuality : Option Nat
deriving DecidableEq

/-- Embedding of processAsset (src/worker.ts): dispatch on the asset type
and on hasOwnProperty of the matching per-kind key.  Calling
hasOwnProperty on an absent assetConfig throws a TypeError; a kind whose
key is missing falls through to the Unsupported error. -/
def processAsset (assetType : AssetType) (inputPath : String)
    (assetConfig : Option AssetConfig) (env : WorkerEnv) : Except String ProcOutcome :=
  match assetConfig with
  | none =>
    Except.error "TypeError: Cannot read properties of undefined (reading hasOwnProperty)"
  | some cfg =>
    if assetType = AssetType.image ∧ cfg.imageProps.isSome then
      match processImage inputPath ((cfg.imageProps.bind ImageProps.compress).getD false)
          (cfg.imageProps.bind ImageProps.cropParams) env.imageEnv with
      | Except.ok r =>
        Except.ok { outputPath := r.outputPath, events := r.events,
                    imageQuality := some r.quality }
      | Except.error e => Except.error e
    else if assetType = AssetType.video ∧ cfg.videoProps.isSome then
      match processVideo inputPath (cfg.videoProps.bind VideoProps.cropParams)
          (cfg.videoProps.bind VideoProps.trimParams)
          ((cfg.videoProps.bind VideoProps.compression).getD false) env.videoEnv with
      | Except.ok r =>
        Except.ok { outputPath := r.outputPath, events := r.plan.events, imageQuality := none }
      | Except.error e => Except.error e
    else if assetType = AssetType.pdf ∧ cfg.pdfProps.isSome then
      match processPDF ((cfg.pdfProps.bind PdfProps.compress).getD false) env.pdfEnv with
      | Except.ok r =>
        Except.ok { outputPath := "/tmp/asset-worker/processed-pdf-" ++ toString env.now ++ ".pdf",
                    events := r.events, imageQuality := none }
      | Except.error e => Except.error e
    else
      Except.error ("Unsupported asset type: " ++ assetTypeName assetType)

/-- Everything observable about one processMessage run: the events pushed
through the logging handle, the attempted PUT (url, content type), whether
the Step 5 cleanup block was reached, the executor outcome, and whether
processMessage returned normally (ok) or threw (error). -/
structure JobTrace where
  events : List Event
  uploadCall : Option (String × String)
  cleanupAttempted : Bool
  procOutcome : Option ProcOutcome
  outcome : Except String Unit

def pendingStarted : Event :=
  { status := LogStatus.pending, message := "Processing started", errorDetail := none }

def skipUploadEvent : Event :=
  completedEvent "Original asset deleted by user. Skipping final upload."

/-- Embedding of processMessage (src/worker.ts).  A JSON parse failure or a
missing required field is caught and the function RETURNS (only an
operational log line is written); an unknown asset type likewise returns.
Download, processing and upload failures push a failed event and
re-throw; the skip-deleted branch pushes a completed event and returns
before Step 5; cleanup failures are caught and only logged. -/
def processMessage (env : WorkerEnv) : JobTrace :=
  match env.parsed with
  | Except.error _ =>
    { events := [], uploadCall := none, cleanupAttempted := false, procOutcome := none,
      outcome := Except.ok () }
  | Except.ok msg =>
    if ¬(truthyStr msg.source ∧ truthyStr msg.originalUrl ∧ truthyStr msg.requestId) then
      { events := [], uploadCall := none, cleanupAttempted := false, procOutcome := none,
        outcome := Except.ok () }
    else
      let assetType := getAssetType env.headResult
      if assetType = AssetType.unknown then
        { events := [], uploadCall := none, cleanupAttempted := false, procOutcome := none,
          outcome := Except.ok () }
      else
        let ev0 := [pendingStarted]
        let inputPath := "/tmp/asset-worker/input-" ++ toString env.now
        match env.download with
        | Except.error e =>
          { events := ev0 ++ [failedEvent ("Download failed: " ++ e)], uploadCall := none,
            cleanupAttempted := false, procOutcome := none, outcome := Except.error e }
        | Except.ok _ =>
          let ev1 := ev0 ++ [procEvent "File downloaded"]
          match processAsset assetType inputPath msg.assetConfig env with
          | Except.error e =>
            { events := ev1 ++ [failedEvent ("Processing failed: " ++ e)], uploadCall := none,
              cleanupAttempted := false, procOutcome := none, outcome := Except.error e }
          | Except.ok pr =>
            let ev2 := ev1 ++ pr.events ++ [procEvent "Processing complete, uploading to DO Spaces"]
            match env.readProcessed with
            | Except.error e =>
              { events := ev2, uploadCall := none, cleanupAttempted := false,
                procOutcome := some pr, outcome := Except.error e }
            | Except.ok _ =>
              if !env.originalExists then
                { events := ev2 ++ [skipUploadEvent], uploadCall := none,
                  cleanupAttempted := false, procOutcome := some pr, outcome := Except.ok () }
              else
                let call := some (msg.overwriteUrl.getD "", getContentType assetType)
                match env.upload with
                | Except.error e =>
                  { events := ev2 ++ [failedEvent ("Upload failed: " ++ e)], uploadCall := call,
                    cleanupAttempted := false, procOutcome := some pr,
                    outcome := Except.error e }
                | Except.ok _ =>
                  { events := ev2 ++ [completedEvent "Upload successful"], uploadCall := call,
                    cleanupAttempted := true, procOutcome := some pr, outcome := Except.ok () }

/-- Queue acknowledgment decisions of the consume callback. -/
inductive AckAction
  | ack
  | nackNoRequeue
deriving DecidableEq

def isOkE {α : Type} : Except String α → Bool
  | Except.ok _ => true
  | Except.error _ => false

/-- Embedding of the consume callback in startWorker (src/worker.ts): ack
when processMessage resolves, nack without requeue when it rejects. -/
def consumeMessage (env : WorkerEnv) : AckAction × JobTrace :=
  let t := processMessage env
  match t.outcome with
  | Except.ok _ => (AckAction.ack, t)
  | Except.error _ => (AckAction.nackNoRequeue, t)

/-- A request entry inside a log document (src/models/Log.ts). -/
structure RequestEntry where
  requestId : String
  source : String
  processingConfig : Option AssetConfig
  events : List Event
deriving DecidableEq

/-- One log document, unique per originalUrl. -/
structure LogDoc where
  originalUrl : String
  requests : List RequestEntry
deriving DecidableEq

/-- The source's "push a new request entry unless this requestId is already
recorded" step of createLogger. -/
def pushRequestIfAbsent (requestId source : String) (cfg : Option AssetConfig)
    (doc : LogDoc) : LogDoc :=
  if doc.requests.any (fun r => r.requestId == requestId) then doc
  else { doc with requests := doc.requests ++
          [{ requestId := requestId, source := source, processingConfig := cfg, events := [] }] }

/-- Apply f to the first document matching url (the document findOne
returns and save writes back). -/
def updateFirstDoc (url : String) (f : LogDoc → LogDoc) : List LogDoc → List LogDoc
  | [] => []
  | d :: ds => if d.originalUrl == url then f d :: ds else d :: updateFirstDoc url f ds

/-- Embedding of createLogger's store mutation (src/utils/logService.ts):
findOne by originalUrl, create the document if missing, then append a
request entry only if the requestId is not yet recorded. -/
def createLoggerStore (requestId source originalUrl : String) (cfg : Option AssetConfig)
    (store : List LogDoc) : List LogDoc :=
  let store1 :=
    match store.find? (fun d => d.originalUrl == originalUrl) with
    | some _ => store
    | none => store ++ [{ originalUrl := originalUrl, requests := [] }]
  updateFirstDoc originalUrl (pushRequestIfAbsent requestId source cfg) store1

/-- How many request entries carry requestId in the document findOne
returns for url (0 when no document exists). -/
def entryCount (store : List LogDoc) (url requestId : String) : Nat :=
  match store.find? (fun d => d.originalUrl == url) with
  | none => 0
  | some d => d.requests.countP (fun r => r.requestId == requestId)

/-- The crop validity predicate as the spec states it. -/
def cropRectValid (cp : CropParams) (w h : Int) : Prop :=
  0 ≤ cp.x ∧ 0 ≤ cp.y ∧ cp.x + cp.width ≤ w ∧ cp.y + cp.height ≤ h

instance (cp : CropParams) (w h : Int) : Decidable (cropRectValid cp w h) := by
  unfold cropRectValid
  exact inferInstance

/-- The trim validity predicate as the spec states it. -/
def trimWindowValid (tp : TrimParams) (d : Rat) : Prop :=
  0 ≤ tp.start ∧ tp.stop ≤ d ∧ tp.start < tp.stop

instance (tp : TrimParams) (d : Rat) : Decidable (trimWindowValid tp d) := by
  unfold trimWindowValid
  exact inferInstance

/-- All probes succeed: image metadata reports the given dimensions, stat
the given size, and re-encoding succeeds. -/
def imgEnvOk (w h : Int) (sz : Nat) : ImageEnv :=
  { metadata := Except.ok { width := some w, height := some h },
    statSize := Except.ok sz, encodeOk := Except.ok () }

/-- Image environment for jobs with no crop request (the metadata oracle is
then never consulted). -/
def imgEnvNoCrop (sz : Nat) : ImageEnv :=
  { metadata := Except.ok { width := none, height := none },
    statSize := Except.ok sz, encodeOk := Except.ok () }

/-- All video probes succeed and the ffmpeg run succeeds. -/
def vidEnvOk (w h : Int) (d : Rat) (sz : Nat) : VideoEnv :=
  { dims := Except.ok (w, h), duration := Except.ok d, statSize := Except.ok sz,
    runOk := Except.ok () }

/-- A well-formed queue message carrying the given assetConfig. -/
def sampleMsg (cfg : Option AssetConfig) : RawMsg :=
  { requestId := some "req-1", source := some "cms", originalUrl := some "https://x/a.jpg",
    overwriteUrl := some "https://x/a-out.jpg", assetConfig := cfg }

/-- A delivery in which every external call succeeds, the asset classifies
as image, and the original still exists. -/
def baseEnv (cfg : Option AssetConfig) : WorkerEnv :=
  { parsed := Except.ok (sampleMsg cfg),
    headResult := some (some "image/jpeg"),
    download := Except.ok [1, 2, 3],
    imageEnv := imgEnvOk 100 100 1000,
    videoEnv := vidEnvOk 100 100 30 1000,
    pdfEnv := { readInput := Except.ok [1], gsRun := Except.ok (none, [1]) },
    readProcessed := Except.ok [9],
    originalExists := true,
    upload := Except.ok (),
    cleanup := Except.ok (),
    now := 0 }

/-- The assetConfig of end-to-end scenario 1 once amended: an imageProps
key is present but requests neither crop nor compression. -/
def scenario1Cfg : AssetConfig :=
  { imageProps := some { compress := none, cropParams := none },
    videoProps := none, pdfProps := none }

/-- Helper: the last element of a cons followed by an append ending in a
nonempty literal tail. -/
theorem getLast?_cons_append_cons {α : Type} (a x : α) (l l2 : List α) :
    (a :: (l ++ x :: l2)).getLast? = (x :: l2).getLast? := by
  rw [← List.cons_append]
  exact List.getLast?_append_cons (a :: l) x l2

/-- Shared case analysis of processMessage: the cleanup step is reached only
on the upload-success branch; the skip-deleted terminal event implies the
cleanup step was not reached; any attempted PUT carries the content type
computed from the classified asset kind. -/
theorem processMessage_shape (env : WorkerEnv) :
    ((processMessage env).cleanupAttempted = true →
      (processMessage env).outcome = Except.ok () ∧
      (processMessage env).events.getLast? = some (completedEvent "Upload successful")) ∧
    ((processMessage env).events.getLast? = some skipUploadEvent →
      (processMessage env).cleanupAttempted = false ∧
      (processMessage env).outcome = Except.ok ()) ∧
    (∀ u ct, (processMessage env).uploadCall = some (u, ct) →
      ct = getContentType (getAssetType env.headResult)) := by
  cases hp : env.parsed with
  | error e0 => simp [processMessage, hp]
  | ok m =>
    by_cases ht : truthyStr m.source ∧ truthyStr m.originalUrl ∧ truthyStr m.requestId
    · by_cases hu : getAssetType env.headResult = AssetType.unknown
      · simp [processMessage, hp, ht, hu]
      · cases hd : env.download with
        | error e1 =>
          simp [processMessage, hp, ht, hu, hd, skipUploadEvent, completedEvent, failedEvent]
        | ok dl =>
          cases hpa : processAsset (getAssetType env.headResult)
              ("/tmp/asset-worker/input-" ++ toString env.now) m.assetConfig env with
          | error e2 =>
            simp [processMessage, hp, ht, hu, hd, hpa, skipUploadEvent, completedEvent,
              failedEvent]
          | ok pr =>
            cases hr : env.readProcessed with
            | error e3 =>
              simp [processMessage, hp, ht, hu, hd, hpa, hr, skipUploadEvent, completedEvent,
                procEvent, List.getLast?_cons_cons, getLast?_cons_append_cons]
            | ok pb =>
              by_cases he : env.originalExists
              · cases hup : env.upload with
                | error e4 =>
                  simp [processMessage, hp, ht, hu, hd, hpa, hr, he, hup, skipUploadEvent,
                    completedEvent, failedEvent, List.getLast?_cons_cons,
                    getLast?_cons_append_cons]
                | ok u0 =>
                  simp [processMessage, hp, ht, hu, hd, hpa, hr, he, hup, skipUploadEvent,
                    completedEvent, List.getLast?_cons_cons, getLast?_cons_append_cons]
              · simp [processMessage, hp, ht, hu, hd, hpa, hr, he, skipUploadEvent,
                  completedEvent, List.getLast?_cons_cons, getLast?_cons_append_cons]
    · simp [processMessage, hp, ht]

/-- A delivery whose body is not valid JSON. -/
def c1ParseFailEnv : WorkerEnv :=
  { baseEnv none with parsed := Except.error "Unexpected token" }

/-- A delivery whose asset probe reports a content type outside the closed
enumeration, classifying as unknown. -/
def c1UnknownEnv : WorkerEnv :=
  { baseEnv none with headResult := some (some "text/html") }

/-- C1 counterexample: a message that fails JSON parsing and a message whose
asset kind classifies as unknown are both ACKNOWLEDGED — processMessage
catches the parse error (and early-returns on unknown), so the consume
callback acks — contradicting the claim that such messages are rejected
without requeue rather than acknowledged. -/
theorem c1_parse_and_unknown_are_acked :
    (consumeMessage c1ParseFailEnv).1 = AckAction.ack ∧
    (consumeMessage c1UnknownEnv).1 = AckAction.ack :=
  ⟨rfl, rfl⟩

/-- C1 (amended): the consumer acknowledges exactly when processMessage
completes without throwing and rejects without requeue exactly when it
throws; but a parse failure / missing required field and an unknown asset
kind make processMessage return normally after logging, so those messages
are acknowledged (and dropped), not rejected. -/
theorem c1_ack_protocol (env : WorkerEnv) :
    ((consumeMessage env).1 = AckAction.ack ↔ isOkE (processMessage env).outcome = true) ∧
    ((consumeMessage env).1 = AckAction.nackNoRequeue ↔
      isOkE (processMessage env).outcome = false) ∧
    (isOkE env.parsed = false → (consumeMessage env).1 = AckAction.ack) ∧
    (getAssetType env.headResult = AssetType.unknown →
      (consumeMessage env).1 = AckAction.ack) := by
  refine ⟨?_, ?_, ?_, ?_⟩
  · unfold consumeMessage
    cases h : (processMessage env).outcome <;> simp [h, isOkE]
  · unfold consumeMessage
    cases h : (processMessage env).outcome <;> simp [h, isOkE]
  · intro hp
    cases hparse : env.parsed with
    | error e => simp [consumeMessage, processMessage, hparse]
    | ok m => rw [hparse] at hp; simp [isOkE] at hp
  · intro hu
    cases hparse : env.parsed with
    | error e => simp [consumeMessage, processMessage, hparse]
    | ok m =>
      by_cases ht : truthyStr m.source ∧ truthyStr m.originalUrl ∧ truthyStr m.requestId
      · simp [consumeMessage, processMessage, hparse, ht, hu]
      · simp [consumeMessage, processMessage, hparse, ht]

/-- C1 witness: the amended acknowledgment protocol evaluated at the
concrete parse-failure delivery. -/
theorem c1_ack_protocol_witness :
    (consumeMessage c1ParseFailEnv).1 = AckAction.ack :=
  (c1_ack_protocol c1ParseFailEnv).2.2.1 (by rfl)

/-- C2 counterexample: scenario 1's intake payload carries no assetConfig,
so the worker's dispatch calls hasOwnProperty on undefined; the job logs a
terminal failed event and the message is rejected — it does not run to
completion. -/
theorem c2_no_config_fails :
    (processMessage (baseEnv none)).outcome =
      Except.error "TypeError: Cannot read properties of undefined (reading hasOwnProperty)" ∧
    ((processMessage (baseEnv none)).events.getLast?.map Event.status) =
      some LogStatus.failed ∧
    (consumeMessage (baseEnv none)).1 = AckAction.nackNoRequeue :=
  ⟨rfl, rfl, rfl⟩

/-- Scenario 1 amended: the same delivery with assetConfig present and an
(empty) imageProps key, arbitrary download bytes, input size and processed
bytes. -/
def scenario1Env (sz : Nat) (dl pb : List Nat) : WorkerEnv :=
  { baseEnv (some scenario1Cfg) with
    download := Except.ok dl,
    imageEnv := imgEnvNoCrop sz,
    readProcessed := Except.ok pb }

/-- C2 (amended): with an assetConfig containing an imageProps key (still
requesting neither crop nor compression) the scenario completes: the image
is re-encoded at the unchanged quality tier 100, the PUT is issued to the
overwrite URL with content type image/jpeg, the terminal event is
completed, and the message is acknowledged. -/
theorem c2_scenario1_completes (sz : Nat) (dl pb : List Nat) :
    (processMessage (scenario1Env sz dl pb)).outcome = Except.ok () ∧
    ((processMessage (scenario1Env sz dl pb)).procOutcome.map ProcOutcome.imageQuality) =
      some (some 100) ∧
    (processMessage (scenario1Env sz dl pb)).uploadCall =
      some ("https://x/a-out.jpg", "image/jpeg") ∧
    ((processMessage (scenario1Env sz dl pb)).events.getLast?.map Event.status) =
      some LogStatus.completed ∧
    (consumeMessage (scenario1Env sz dl pb)).1 = AckAction.ack :=
  ⟨rfl, rfl, rfl, rfl, rfl⟩

/-- A successful job whose existence re-check reports the original asset as
deleted, reaching the skip-upload terminal outcome. -/
def c3SkipEnv : WorkerEnv :=
  { baseEnv (some scenario1Cfg) with originalExists := false }

/-- C3 counterexample: a job that terminates in the
skipped-because-deleted outcome returns from processMessage BEFORE the
Step 5 cleanup block, so cleanup is not attempted there (the message is
still acknowledged). -/
theorem c3_skip_terminal_skips_cleanup :
    (processMessage c3SkipEnv).events.getLast? = some skipUploadEvent ∧
    (processMessage c3SkipEnv).cleanupAttempted = false ∧
    (consumeMessage c3SkipEnv).1 = AckAction.ack :=
  ⟨rfl, rfl, rfl⟩

def withCleanup (env : WorkerEnv) (c : Except String Unit) : WorkerEnv :=
  { env with cleanup := c }

/-- C3 (amended): the cleanup step is attempted exactly on the
successful-upload terminal outcome, where a cleanup failure is only logged
and changes nothing observable (identical trace, message still
acknowledged); the skipped-because-deleted terminal outcome returns before
cleanup, though its message is also acknowledged. -/
theorem c3_cleanup_contract (env : WorkerEnv) (e : String) :
    ((processMessage env).cleanupAttempted = true →
      (processMessage env).outcome = Except.ok () ∧
      (consumeMessage env).1 = AckAction.ack ∧
      (processMessage env).events.getLast? = some (completedEvent "Upload successful")) ∧
    ((processMessage env).events.getLast? = some skipUploadEvent →
      (processMessage env).cleanupAttempted = false ∧
      (consumeMessage env).1 = AckAction.ack) ∧
    processMessage (withCleanup env (Except.error e)) = processMessage env := by
  obtain ⟨h1, h2, _⟩ := processMessage_shape env
  refine ⟨?_, ?_, rfl⟩
  · intro hcl
    obtain ⟨hok, hlast⟩ := h1 hcl
    exact ⟨hok, by simp [consumeMessage, hok], hlast⟩
  · intro hsk
    obtain ⟨hcl, hok⟩ := h2 hsk
    exact ⟨hcl, by simp [consumeMessage, hok]⟩

/-- C3 witness: the amended cleanup contract evaluated at the all-success
delivery, whose trace does reach cleanup. -/
theorem c3_cleanup_contract_witness :
    (processMessage (baseEnv (some scenario1Cfg))).outcome = Except.ok () ∧
    (consumeMessage (baseEnv (some scenario1Cfg))).1 = AckAction.ack ∧
    (processMessage (baseEnv (some scenario1Cfg))).events.getLast? =
      some (completedEvent "Upload successful") :=
  (c3_cleanup_contract (baseEnv (some scenario1Cfg)) "unlink failed").1 (by rfl)

def c4Rect : CropParams := { x := 0, y := 0, width := 10, height := 10 }

def c4CropCfg : AssetConfig :=
  { imageProps := some { compress := none, cropParams := some c4Rect },
    videoProps := none, pdfProps := none }

/-- An image whose dimension probe (sharp metadata) throws. -/
def c4ImageEnv : ImageEnv :=
  { metadata := Except.error "Input file contains unsupported image format",
    statSize := Except.ok 100, encodeOk := Except.ok () }

def c4JobEnv : WorkerEnv :=
  { baseEnv (some c4CropCfg) with imageEnv := c4ImageEnv }

/-- C4 counterexample: an image job whose geometry probe fails is NOT
degraded to a warning — the probe sits outside any try/catch in the image
executor, so the error propagates, the job logs a terminal failed event
and the message is rejected. -/
theorem c4_image_probe_failure_fails_job :
    processImage "/tmp/asset-worker/input-0" false (some c4Rect) c4ImageEnv
      = Except.error "Input file contains unsupported image format" ∧
    (consumeMessage c4JobEnv).1 = AckAction.nackNoRequeue ∧
    ((processMessage c4JobEnv).events.getLast?.map Event.status) = some LogStatus.failed :=
  ⟨rfl, rfl, rfl⟩

/-- Video environment whose dimension probe throws. -/
def vidEnvDimsFail (e1 : String) (d : Rat) (senv : Except String Nat) : VideoEnv :=
  { dims := Except.error e1, duration := Except.ok d, statSize := senv,
    runOk := Except.ok () }

/-- Video environment whose duration probe throws. -/
def vidEnvDurFail (w h : Int) (e2 : String) (senv : Except String Nat) : VideoEnv :=
  { dims := Except.ok (w, h), duration := Except.error e2, statSize := senv,
    runOk := Except.ok () }

/-- C4 (amended): the video executor degrades probe failures gracefully —
a failed dimension probe warns and omits the crop, a failed duration probe
warns and skips the trim, and the executor still produces an output — but
the image executor has no such handling: a failed metadata probe
propagates out of processImage and fails the whole job. -/
theorem c4_probe_degradation (ip e1 e2 e3 : String) (cp : CropParams) (tp : TrimParams)
    (c : Bool) (d : Rat) (w h : Int) (senv : Except String Nat) :
    ((videoPlan (some cp) (some tp) c (vidEnvDimsFail e1 d senv)).cropFilter = none ∧
     hasStatus (videoPlan (some cp) (some tp) c (vidEnvDimsFail e1 d senv)).events
       LogStatus.warning = true ∧
     (processVideo ip (some cp) (some tp) c (vidEnvDimsFail e1 d senv)).toOption.isSome = true) ∧
    ((videoPlan (some cp) (some tp) c (vidEnvDurFail w h e2 senv)).trimApplied = none ∧
     hasStatus (videoPlan (some cp) (some tp) c (vidEnvDurFail w h e2 senv)).events
       LogStatus.warning = true ∧
     (processVideo ip (some cp) (some tp) c (vidEnvDurFail w h e2 senv)).toOption.isSome = true) ∧
    processImage ip c (some cp)
        { metadata := Except.error e3, statSize := senv, encodeOk := Except.ok () }
      = Except.error e3 := by
  refine ⟨⟨rfl, rfl, rfl⟩, ⟨rfl, ?_, rfl⟩, rfl⟩
  by_cases hc : cp.x < 0 ∨ cp.y < 0 ∨ cp.x + cp.width > w ∨ cp.y + cp.height > h
  · simp [videoPlan, hasStatus, hc, vidEnvDurFail, videoCropWarn, warnEvent]
  · simp [videoPlan, hasStatus, hc, vidEnvDurFail, warnEvent]

/-- C5: a crop rectangle is applied iff x ≥ 0, y ≥ 0, x+width ≤ imgWidth
and y+height ≤ imgHeight against the probed dimensions; on violation a
warning is emitted and processing continues — the image executor
substitutes the full-frame rectangle, the video executor omits the crop
filter — and the violation never fails either executor. -/
theorem c5_crop_contract (ip : String) (cp : CropParams) (w h : Int) (sz : Nat) (c : Bool)
    (d : Rat) (vsz : Nat) :
    ((processImage ip c (some cp) (imgEnvOk w h sz)).toOption.isSome = true) ∧
    (cropRectValid cp w h →
      (processImage ip c (some cp) (imgEnvOk w h sz)).toOption.map ImageResult.appliedCrop =
        some (some cp) ∧
      (processImage ip c (some cp) (imgEnvOk w h sz)).toOption.map ImageResult.events =
        some []) ∧
    (¬ cropRectValid cp w h →
      (processImage ip c (some cp) (imgEnvOk w h sz)).toOption.map ImageResult.appliedCrop =
        some (some { x := 0, y := 0, width := w, height := h }) ∧
      (processImage ip c (some cp) (imgEnvOk w h sz)).toOption.map ImageResult.events =
        some [imageCropWarn cp w h]) ∧
    ((videoPlan (some cp) none c (vidEnvOk w h d vsz)).cropFilter = some cp ↔
      cropRectValid cp w h) ∧
    (¬ cropRectValid cp w h →
      (videoPlan (some cp) none c (vidEnvOk w h d vsz)).cropFilter = none ∧
      hasStatus (videoPlan (some cp) none c (vidEnvOk w h d vsz)).events
        LogStatus.warning = true) ∧
    ((processVideo ip (some cp) none c (vidEnvOk w h d vsz)).toOption.isSome = true) := by
  have key : (cp.x < 0 ∨ cp.y < 0 ∨ cp.x + cp.width > w ∨ cp.y + cp.height > h) ↔
      ¬ cropRectValid cp w h := by
    unfold cropRectValid
    omega
  by_cases hv : cropRectValid cp w h
  · have hno : ¬(cp.x < 0 ∨ cp.y < 0 ∨ cp.x + cp.width > w ∨ cp.y + cp.height > h) :=
      fun hcon => (key.mp hcon) hv
    refine ⟨?_, fun _ => ⟨?_, ?_⟩, fun hnv => absurd hv hnv, ?_, fun hnv => absurd hv hnv, ?_⟩
    · simp [processImage, imgEnvOk, hno, Bind.bind, Except.bind, Except.toOption]
    · simp [processImage, imgEnvOk, hno, Bind.bind, Except.bind, Except.toOption]
    · simp [processImage, imgEnvOk, hno, Bind.bind, Except.bind, Except.toOption]
    · simp [videoPlan, vidEnvOk, hno, hv]
    · simp [processVideo, vidEnvOk, Except.toOption]
  · have hyes : cp.x < 0 ∨ cp.y < 0 ∨ cp.x + cp.width > w ∨ cp.y + cp.height > h :=
      key.mpr hv
    refine ⟨?_, fun hvv => absurd hvv hv, fun _ => ⟨?_, ?_⟩, ?_, fun _ => ⟨?_, ?_⟩, ?_⟩
    · simp [processImage, imgEnvOk, hyes, Bind.bind, Except.bind, Except.toOption]
    · simp [processImage, imgEnvOk, hyes, Bind.bind, Except.bind, Except.toOption]
    · simp [processImage, imgEnvOk, hyes, Bind.bind, Except.bind, Except.toOption]
    · simp [videoPlan, vidEnvOk, hyes, hv]
    · simp [videoPlan, vidEnvOk, hyes]
    · simp [videoPlan, vidEnvOk, hyes, hasStatus, videoCropWarn, warnEvent]
    · simp [processVideo, vidEnvOk, Except.toOption]

/-- C5 witness: a 20 by 20 rectangle against a 10 by 10 image is rejected,
the full frame is substituted and the crop warning is logged. -/
theorem c5_crop_contract_witness :
    (processImage "in.jpg" false (some { x := 0, y := 0, width := 20, height := 20 })
        (imgEnvOk 10 10 1000)).toOption.map ImageResult.appliedCrop =
      some (some { x := 0, y := 0, width := 10, height := 10 }) ∧
    (processImage "in.jpg" false (some { x := 0, y := 0, width := 20, height := 20 })
        (imgEnvOk 10 10 1000)).toOption.map ImageResult.events =
      some [imageCropWarn { x := 0, y := 0, width := 20, height := 20 } 10 10] :=
  (c5_crop_contract "in.jpg" { x := 0, y := 0, width := 20, height := 20 } 10 10 1000 false
      30 1000).2.2.1 (by decide)

/-- C6: trimming is applied iff start ≥ 0, end ≤ duration and start < end
against the probed duration; on violation a warning is emitted, trimming
is skipped, and the output duration equals the original untrimmed
duration — in particular for every window with start ≥ end. -/
theorem c6_trim_contract (tp : TrimParams) (d : Rat) (c : Bool) (w h : Int) (vsz : Nat) :
    ((videoPlan none (some tp) c (vidEnvOk w h d vsz)).trimApplied = some tp ↔
      trimWindowValid tp d) ∧
    (¬ trimWindowValid tp d →
      (videoPlan none (some tp) c (vidEnvOk w h d vsz)).trimApplied = none ∧
      hasStatus (videoPlan none (some tp) c (vidEnvOk w h d vsz)).events
        LogStatus.warning = true ∧
      videoOutputDuration d (videoPlan none (some tp) c (vidEnvOk w h d vsz)).trimApplied = d) ∧
    (tp.stop ≤ tp.start →
      videoOutputDuration d (videoPlan none (some tp) c (vidEnvOk w h d vsz)).trimApplied = d) := by
  have key : (tp.start < 0 ∨ tp.stop > d ∨ tp.start ≥ tp.stop) ↔ ¬ trimWindowValid tp d := by
    unfold trimWindowValid
    constructor
    · rintro (h1 | h2 | h3) ⟨k1, k2, k3⟩
      · exact absurd k1 (not_le.mpr h1)
      · exact absurd k2 (not_le.mpr h2)
      · exact absurd k3 (not_lt.mpr h3)
    · intro hn
      by_contra hall
      push_neg at hall
      exact hn ⟨hall.1, hall.2.1, hall.2.2⟩
  by_cases hv : trimWindowValid tp d
  · have hno : ¬(tp.start < 0 ∨ tp.stop > d ∨ tp.start ≥ tp.stop) := fun hcon => (key.mp hcon) hv
    refine ⟨?_, fun hnv => absurd hv hnv, fun hss => absurd hv (key.mp (Or.inr (Or.inr hss)))⟩
    simp [videoPlan, vidEnvOk, hno, hv]
  · have hyes : tp.start < 0 ∨ tp.stop > d ∨ tp.start ≥ tp.stop := key.mpr hv
    have htrim : (videoPlan none (some tp) c (vidEnvOk w h d vsz)).trimApplied = none := by
      simp [videoPlan, vidEnvOk, hyes]
    refine ⟨?_, fun _ => ⟨htrim, ?_, ?_⟩, fun _ => ?_⟩
    · simp [htrim, hv]
    · simp [videoPlan, vidEnvOk, hyes, hasStatus, videoTrimWarn, warnEvent]
    · simp [videoOutputDuration, htrim]
    · simp [videoOutputDuration, htrim]

/-- C6 witness: the window start 50, end 10 against a 30 second video is
rejected, a warning is logged and the output keeps the full 30 second
duration (end-to-end scenario 3 of the spec). -/
theorem c6_trim_contract_witness :
    (videoPlan none (some { start := 50, stop := 10 }) false
      (vidEnvOk 100 100 30 1000)).trimApplied = none ∧
    hasStatus (videoPlan none (some { start := 50, stop := 10 }) false
      (vidEnvOk 100 100 30 1000)).events LogStatus.warning = true ∧
    videoOutputDuration 30 (videoPlan none (some { start := 50, stop := 10 }) false
      (vidEnvOk 100 100 30 1000)).trimApplied = 30 :=
  (c6_trim_contract { start := 50, stop := 10 } 30 false 100 100 1000).2.1 (by decide)

/-- C7: compression applies iff requested and the input strictly exceeds
the kind-specific floor — image 500 KiB (quality 60 versus 100), video
1.5 MiB (crf flag), pdf 50 KiB (compression attempted) — and an image of
exactly 512000 bytes stays at quality 100 while 512001 bytes drops to 60. -/
theorem c7_compression_floors (ip : String) (sz : Nat) (c : Bool) (buf : List Nat)
    (gsr : Except String (Option String × List Nat)) :
    ((processImage ip c none (imgEnvNoCrop sz)).toOption.map ImageResult.quality = some 60 ↔
      (c = true ∧ 512000 < sz)) ∧
    ((processImage ip c none (imgEnvNoCrop sz)).toOption.map ImageResult.quality = some 100 ↔
      ¬(c = true ∧ 512000 < sz)) ∧
    ((processImage ip true none (imgEnvNoCrop 512000)).toOption.map ImageResult.quality =
      some 100) ∧
    ((processImage ip true none (imgEnvNoCrop 512001)).toOption.map ImageResult.quality =
      some 60) ∧
    ((videoPlan none none c (vidEnvOk 0 0 0 sz)).crfApplied = true ↔
      (c = true ∧ 1572864 < sz)) ∧
    ((processPDF c { readInput := Except.ok buf, gsRun := gsr }).toOption.map
        PdfResult.compressionAttempted = some true ↔ (c = true ∧ 51200 < buf.length)) := by
  refine ⟨?_, ?_, rfl, rfl, ?_, ?_⟩
  · by_cases hc : c = true ∧ 512000 < sz
    · simp [processImage, imgEnvNoCrop, hc, Bind.bind, Except.bind, Except.toOption]
    · simp [processImage, imgEnvNoCrop, hc, Bind.bind, Except.bind, Except.toOption]
  · by_cases hc : c = true ∧ 512000 < sz
    · simp [processImage, imgEnvNoCrop, hc, Bind.bind, Except.bind, Except.toOption]
    · simp [processImage, imgEnvNoCrop, hc, Bind.bind, Except.bind, Except.toOption]
  · by_cases hc : c = true ∧ 1572864 < sz
    · simp [videoPlan, vidEnvOk, hc]
    · simp [videoPlan, vidEnvOk, hc]
  · by_cases hc : c = true ∧ 51200 < buf.length
    · cases gsr with
      | ok pr =>
        cases pr with
        | mk st cb => cases st <;> simp [processPDF, hc, Bind.bind, Except.bind, Except.toOption]
      | error e => simp [processPDF, hc, Bind.bind, Except.bind, Except.toOption]
    · simp [processPDF, hc, Bind.bind, Except.bind, Except.toOption]

/-- Helper: one createLogger call leaves the entry count unchanged when the
requestId is already recorded and sets it to 1 when it is not. -/
theorem createLoggerStore_entryCount (requestId source url : String) (cfg : Option AssetConfig)
    (store : List LogDoc) :
    entryCount (createLoggerStore requestId source url cfg store) url requestId =
      if entryCount store url requestId = 0 then 1 else entryCount store url requestId := by
  induction store with
  | nil =>
    simp [createLoggerStore, entryCount, updateFirstDoc, pushRequestIfAbsent]
  | cons dh tl ih =>
    by_cases hd : (dh.originalUrl == url) = true
    · by_cases hreq : (dh.requests.any (fun r => r.requestId == requestId)) = true
      · have hne : ¬ (∀ a ∈ dh.requests, ¬a.requestId = requestId) := by
          obtain ⟨a, ha, haa⟩ := List.any_eq_true.mp hreq
          exact fun hall => hall a ha (by simpa using haa)
        simp [createLoggerStore, entryCount, updateFirstDoc, pushRequestIfAbsent, hd, hreq, hne]
      · have hall : ∀ a ∈ dh.requests, ¬a.requestId = requestId := by
          intro a ha hcon
          exact hreq (List.any_eq_true.mpr ⟨a, ha, by simpa using hcon⟩)
        have hzero : dh.requests.countP (fun r => r.requestId == requestId) = 0 :=
          List.countP_eq_zero.mpr (by intro a ha; simpa using hall a ha)
        simp [createLoggerStore, entryCount, updateFirstDoc, pushRequestIfAbsent, hd, hreq,
          List.countP_append, hall, hzero]
    · cases hf : tl.find? (fun d => d.originalUrl == url) with
      | none =>
        simpa [createLoggerStore, entryCount, updateFirstDoc, hd, hf] using ih
      | some dfound =>
        simpa [createLoggerStore, entryCount, updateFirstDoc, hd, hf] using ih

/-- C8: opening the request log twice with the same (originalUrl,
requestId) pair is idempotent — starting from any store in which that pair
is not yet recorded, the document for that originalUrl holds exactly one
request entry with that requestId after both calls, not two. -/
theorem c8_createLogger_idempotent (requestId source url : String)
    (cfg cfg2 : Option AssetConfig) (store : List LogDoc)
    (h : entryCount store url requestId = 0) :
    entryCount (createLoggerStore requestId source url cfg2
      (createLoggerStore requestId source url cfg store)) url requestId = 1 := by
  have h1 : entryCount (createLoggerStore requestId source url cfg store) url requestId = 1 := by
    rw [createLoggerStore_entryCount, h]
    simp
  rw [createLoggerStore_entryCount, h1]
  simp

/-- C8 witness: idempotence evaluated from the empty store. -/
theorem c8_createLogger_idempotent_witness :
    entryCount (createLoggerStore "req-1" "cms" "https://x/a.jpg" none
      (createLoggerStore "req-1" "cms" "https://x/a.jpg" none [])) "https://x/a.jpg" "req-1"
      = 1 :=
  c8_createLogger_idempotent "req-1" "cms" "https://x/a.jpg" none none [] (by rfl)

/-- Image environment whose final webp re-encode throws. -/
def imgEnvEncodeFail (md : ImageMetadata) (sz : Nat) (eimg : String) : ImageEnv :=
  { metadata := Except.ok md, statSize := Except.ok sz, encodeOk := Except.error eimg }

/-- Video environment whose final ffmpeg run rejects. -/
def vidEnvRunFail (dims : Except String (Int × Int)) (dur : Except String Rat)
    (ssz : Except String Nat) (evid : String) : VideoEnv :=
  { dims := dims, duration := dur, statSize := ssz, runOk := Except.error evid }

/-- A PDF whose Ghostscript compression pass throws. -/
def pdfEnvGsFail (buf : List Nat) (e : String) : PdfEnv :=
  { readInput := Except.ok buf, gsRun := Except.error e }

/-- C9: when PDF compression is requested on an above-floor input and the
Ghostscript pass fails, processPDF returns the ORIGINAL bytes with a
warning event instead of raising; by contrast an image executor error
(the re-encode) and a video executor error (the ffmpeg run) propagate and
fail the job. -/
theorem c9_pdf_best_effort (buf : List Nat) (e eimg evid : String) (c : Bool) (ip : String)
    (cpo : Option CropParams) (tpo : Option TrimParams) (md : ImageMetadata) (sz : Nat)
    (dims : Except String (Int × Int)) (dur : Except String Rat) (ssz : Except String Nat)
    (h : 51200 < buf.length) :
    (processPDF true (pdfEnvGsFail buf e)).toOption.map
        (fun r => (r.output, hasStatus r.events LogStatus.warning)) = some (buf, true) ∧
    processImage ip c cpo (imgEnvEncodeFail md sz eimg) = Except.error eimg ∧
    processVideo ip cpo tpo c (vidEnvRunFail dims dur ssz evid) = Except.error evid := by
  refine ⟨?_, ?_, rfl⟩
  · simp [processPDF, pdfEnvGsFail, h, Bind.bind, Except.bind, Except.toOption, hasStatus,
      warnEvent, procEvent]
  · cases cpo with
    | none => rfl
    | some cp =>
      by_cases hcond : cp.x < 0 ∨ cp.y < 0 ∨ cp.x + cp.width > md.width.getD 0 ∨
          cp.y + cp.height > md.height.getD 0
      · simp [processImage, imgEnvEncodeFail, Bind.bind, Except.bind, hcond]
      · simp [processImage, imgEnvEncodeFail, Bind.bind, Except.bind, hcond]

/-- C9 witness: an above-floor PDF with a failing compression pass. -/
theorem c9_pdf_best_effort_witness :
    (processPDF true (pdfEnvGsFail (List.replicate 51201 0) "gs exited with code 1")).toOption.map
        (fun r => (r.output, hasStatus r.events LogStatus.warning)) =
      some (List.replicate 51201 0, true) :=
  (c9_pdf_best_effort (List.replicate 51201 0) "gs exited with code 1" "x" "y" false "ip"
      none none { width := none, height := none } 0 (Except.ok (0, 0)) (Except.ok 0)
      (Except.ok 0) (by rw [List.length_replicate]; norm_num)).1

/-- Helper: every successful processImage run writes its output under the
processed folder with a .webp name derived from the input basename. -/
theorem processImage_outputPath (ip : String) (c : Bool) (cpo : Option CropParams)
    (ienv : ImageEnv) (r : ImageResult) (hok : processImage ip c cpo ienv = Except.ok r) :
    r.outputPath = "processed/processed-" ++ basenameNoExt ip ++ ".webp" := by
  obtain ⟨md, ssz, enc⟩ := ienv
  unfold processImage at hok
  cases cpo <;> cases md <;> cases ssz <;> cases enc <;>
    simp only [Bind.bind, Except.bind] at hok
  all_goals
    first
      | exact Except.noConfusion hok
      | (split at hok <;>
          first
            | exact Except.noConfusion hok
            | (injection hok with h2; rw [← h2]))

/-- C10: for an image job the attempted PUT always carries the Content-Type
image/jpeg computed by getContentType from the classified kind alone, even
though every successful image executor run writes a .webp output file. -/
theorem c10_upload_content_type (env : WorkerEnv) (u ct ip : String) (c : Bool)
    (cpo : Option CropParams) (ienv : ImageEnv) (r : ImageResult) :
    (getAssetType env.headResult = AssetType.image →
      (processMessage env).uploadCall = some (u, ct) → ct = "image/jpeg") ∧
    (processImage ip c cpo ienv = Except.ok r → ∃ stem, r.outputPath = stem ++ ".webp") ∧
    getContentType AssetType.image = "image/jpeg" := by
  refine ⟨?_, ?_, rfl⟩
  · intro himg hcall
    have h3 := (processMessage_shape env).2.2 u ct hcall
    rw [himg] at h3
    exact h3
  · intro hok
    exact ⟨"processed/processed-" ++ basenameNoExt ip,
      processImage_outputPath ip c cpo ienv r hok⟩

/-- The image executor result of the all-success scenario 1 delivery. -/
def c10Result : ImageResult :=
  { outputPath := "processed/processed-ip.webp", appliedCrop := none, quality := 100,
    events := [] }

/-- C10 witness: the content-type rule and the .webp output shape at the
concrete all-success image delivery. -/
theorem c10_upload_content_type_witness :
    ("image/jpeg" : String) = "image/jpeg" ∧
    ∃ stem, c10Result.outputPath = stem ++ ".webp" :=
  ⟨(c10_upload_content_type (baseEnv (some scenario1Cfg)) "https://x/a-out.jpg" "image/jpeg"
      "ip" false none (imgEnvNoCrop 0) c10Result).1 (by rfl) (by rfl),
   (c10_upload_content_type (baseEnv (some scenario1Cfg)) "https://x/a-out.jpg" "image/jpeg"
      "ip" false none (imgEnvNoCrop 0) c10Result).2.1 (by rfl)⟩

end AssetServer
